import Mathlib

/-!
Shallow embedding of the AC-control backend (`main.py`) of
whoisjayd/Internship-Project-AC-Control-IOT, covering the telemetry
ingestion bridge (`on_message`), the persistence transaction
(`store_message`), the command publisher (`send_device_command`), the
credential gate (`get_current_customer`,
`get_current_customer_or_device_auth`, `get_current_customer_ws`) and the
real-time broadcast loop of `websocket_endpoint`.

Machine-level collaborators from the Python standard library
(`json.loads`, `uuid.UUID`, `int()`, the `re` MAC pattern) are modelled
faithfully over ASCII strings; timestamps are modelled as natural numbers.
-/

namespace AC

/-- A parsed JSON value, the result of a successful `json.loads`.
JSON numbers are modelled as integers; no claim inspects numeric payload
values, only key presence and structural shape. -/
inductive Json where
  | null : Json
  | bool : Bool → Json
  | num : Int → Json
  | str : String → Json
  | arr : List Json → Json
  | obj : List (String × Json) → Json

/-- Python dict lookup `fields[k]` / `k in fields` on a JSON object,
modelled over the association list of a `Json.obj`. -/
def lookupField (fields : List (String × Json)) (k : String) : Option Json :=
  (fields.find? (fun p => p.1 == k)).map (fun p => p.2)

/-- Python truthiness of a JSON value (`if not customer_id:`):
`None`, `False`, `0`, `""`, `[]` and `{}` are falsy. -/
def jsonFalsy : Json → Bool
  | Json.null => true
  | Json.bool b => !b
  | Json.num n => n == 0
  | Json.str s => s == ""
  | Json.arr xs => xs.isEmpty
  | Json.obj fs => fs.isEmpty

/-- ASCII whitespace stripped by Python `int()` around a numeral. -/
def pyWhitespace (c : Char) : Bool :=
  c == ' ' || c == '\t' || c == '\n' || c == '\r' || c == '\x0b' || c == '\x0c'

/-- Python `str.split(sep)` for a one-character separator: split at every
occurrence, keeping empty pieces, always at least one piece. -/
def pySplit (sep : Char) : List Char → List (List Char)
  | [] => [[]]
  | c :: cs =>
    let r := pySplit sep cs
    if c == sep then [] :: r
    else
      match r with
      | h :: t => (c :: h) :: t
      | [] => [[c]]

/-- `str.split` lifted to `String`. -/
def pyStrSplit (sep : Char) (s : String) : List String :=
  (pySplit sep s.data).map String.mk

/-- Remove every occurrence of `pat` (left to right, non-overlapping), the
effect of Python `s.replace(pat, '')`. Fuelled by the input length so the
recursion is structural; one unit of fuel is spent per removal or kept
character, which never exceeds the input length. -/
def removeAllFuel (pat : List Char) : Nat → List Char → List Char
  | _, [] => []
  | 0, cs => cs
  | fuel + 1, c :: cs =>
    if pat.isPrefixOf (c :: cs) then
      removeAllFuel pat fuel (cs.drop (pat.length - 1))
    else c :: removeAllFuel pat fuel cs

/-- Python `s.replace(pat, '')`. -/
def removeAll (pat : List Char) (cs : List Char) : List Char :=
  removeAllFuel pat cs.length cs

/-- ASCII-only model of Python `str.upper()` (device ids are MAC strings,
so only ASCII letters occur). -/
def pyUpperChar (c : Char) : Char :=
  if 'a' ≤ c ∧ c ≤ 'z' then Char.ofNat (c.toNat - 32) else c

/-- Python `device_id.upper()`. -/
def pyUpper (s : String) : String :=
  String.mk (s.data.map pyUpperChar)

/-- Drop characters satisfying `bad` from both ends of a list
(Python `str.strip`). -/
def stripEnds (bad : Char → Bool) (cs : List Char) : List Char :=
  ((cs.dropWhile bad).reverse.dropWhile bad).reverse

/-- Value of an ASCII decimal digit. -/
def decVal (c : Char) : Option Nat :=
  if c.isDigit then some (c.toNat - 48) else none

/-- Value of an ASCII hexadecimal digit (either case). -/
def hexVal (c : Char) : Option Nat :=
  if c.isDigit then some (c.toNat - 48)
  else if 'a' ≤ c ∧ c ≤ 'f' then some (c.toNat - 87)
  else if 'A' ≤ c ∧ c ≤ 'F' then some (c.toNat - 55)
  else none

/-- Continue a Python numeral after its first digit: digits with single
underscores allowed between digits (`int("1_6")` parses). -/
def digitsVal (dv : Char → Option Nat) (radix : Nat) (acc : Nat) :
    List Char → Option Nat
  | [] => some acc
  | c :: cs =>
    match dv c with
    | some v => digitsVal dv radix (radix * acc + v) cs
    | none =>
      if c == '_' then
        match cs with
        | c2 :: cs2 =>
          match dv c2 with
          | some v2 => digitsVal dv radix (radix * acc + v2) cs2
          | none => none
        | [] => none
      else none

/-- A nonempty run of digits starting with a digit (no leading underscore). -/
def digitsRun (dv : Char → Option Nat) (radix : Nat) :
    List Char → Option Nat
  | [] => none
  | c :: cs =>
    match dv c with
    | some v => digitsVal dv radix v cs
    | none => none

/-- Python `int(s, radix)` over ASCII input: strip whitespace, optional
sign, optional `0x`/`0X` prefix when `allowHexPrefix` (base 16 allows it,
optionally followed by one underscore), then digits with underscores. -/
def pyIntCore (dv : Char → Option Nat) (radix : Nat) (allowHexPrefix : Bool)
    (s : List Char) : Option Int :=
  let cs := stripEnds pyWhitespace s
  let signed : Bool × List Char :=
    match cs with
    | '+' :: r => (false, r)
    | '-' :: r => (true, r)
    | r => (false, r)
  let body : List Char :=
    if allowHexPrefix then
      match signed.2 with
      | '0' :: x :: r =>
        if x == 'x' || x == 'X' then
          match r with
          | '_' :: r2 => r2
          | _ => r
        else signed.2
      | _ => signed.2
    else signed.2
  (digitsRun dv radix body).map
    (fun n => if signed.1 then -(n : Int) else (n : Int))

/-- Python `int(value)` (base 10) as used by the temperature command. -/
def pyInt (s : String) : Option Int :=
  pyIntCore decVal 10 false s.data

/-- Python `uuid.UUID(s)`: remove `urn:` and `uuid:`, strip surrounding
braces, remove dashes, require 32 remaining characters, parse base 16.
Returns the 128-bit value. -/
def pyUUIDparse (s : String) : Option Nat :=
  let t := removeAll "uuid:".data (removeAll "urn:".data s.data)
  let cs := stripEnds (fun c => c == '\x7b' || c == '\x7d') t
  let cs2 := cs.filter (fun c => c != '-')
  if cs2.length == 32 then
    match pyIntCore hexVal 16 true cs2 with
    | some (Int.ofNat n) => some n
    | _ => none
  else none

/-- One lowercase hexadecimal digit character. -/
def hexChar (n : Nat) : Char :=
  if n < 10 then Char.ofNat (48 + n) else Char.ofNat (87 + n)

/-- The 32 lowercase hex digits of a 128-bit value, most significant
first (Python `'%032x' % n`). -/
def hex32 (n : Nat) : List Char :=
  (List.range 32).map (fun i => hexChar ((n >>> (4 * (31 - i))) % 16))

/-- Python `str(uuid_value)`: canonical lowercase 8-4-4-4-12 form. -/
def uuidStr (n : Nat) : String :=
  let h := hex32 n
  String.mk (h.take 8 ++ ('-' :: (h.drop 8).take 4) ++
    ('-' :: (h.drop 12).take 4) ++ ('-' :: (h.drop 16).take 4) ++
    ('-' :: h.drop 20))

/-- Whether a character is an ASCII hex digit. -/
def isHexDig (c : Char) : Bool := (hexVal c).isSome

/-- Exact match of the MAC pattern `([0-9A-Fa-f]{2}:){5}[0-9A-Fa-f]{2}`:
six colon-separated pairs of hex digits. -/
def macExact (s : String) : Bool :=
  let parts := pySplit ':' s.data
  parts.length == 6 && parts.all (fun p => p.length == 2 && p.all isHexDig)

/-- Python `re.match(r'^([0-9A-Fa-f]{2}:){5}[0-9A-Fa-f]{2}$', s)`:
`$` also matches just before one trailing newline. -/
def pyMacMatch (s : String) : Bool :=
  macExact s ||
    (s.data.getLast? == some '\n' && macExact (String.mk s.data.dropLast))

/-- The body bytes of an MQTT message after the stdlib collaborators ran:
not valid UTF-8 (`decode` raises, a `ValueError` subclass), valid UTF-8 but
not JSON (`json.loads` raises), or a parsed JSON value. -/
inductive RawBody where
  | undecodable : RawBody
  | badJson : RawBody
  | value : Json → RawBody

/-- The validated message handed from `on_message` to `store_message`:
topic segments 1–3 exactly as they appeared in the topic, plus the parsed
JSON-object payload. -/
structure TelemetryEvent where
  customer_id : String
  device_id : String
  message_type : String
  payload : List (String × Json)

/-- Core of `on_message` (main.py lines 731–777) applied to the already
split topic. Returns `some` exactly when a `store_message` coroutine is
scheduled; every rejection path (including the outermost `except`) returns
`none` with no other effect, and `loopReady` models whether the global
`app_event_loop` has been set. -/
def validate_parts (topic_parts : List String) (body : RawBody)
    (loopReady : Bool) : Option TelemetryEvent :=
  if topic_parts.length < 4 then none
  else if (pyUUIDparse (topic_parts.getD 1 "")).isNone then none
  else if !(pyMacMatch (topic_parts.getD 2 "")) then none
  else if !((topic_parts.getD 3 "") == "status" ||
      (topic_parts.getD 3 "") == "telemetry") then none
  else
    match body with
    | RawBody.value (Json.obj fields) =>
      if loopReady then
        some ⟨topic_parts.getD 1 "", topic_parts.getD 2 "",
          topic_parts.getD 3 "", fields⟩
      else none
    | _ => none

/-- `on_message`: split the topic on `/` and validate (main.py 731–777). -/
def on_message (topic : String) (body : RawBody) (loopReady : Bool) :
    Option TelemetryEvent :=
  validate_parts (pyStrSplit '/' topic) body loopReady

/-- A row of the `devices` table. UUID columns are the 128-bit values;
timestamps are naturals. `firmware_version` holds whatever JSON value the
ingestion path last wrote (the column is a string; registration writes
string values). -/
structure DeviceRow where
  device_id : String
  customer_id : Nat
  zone_id : Nat
  ac_brand_name : String
  ac_brand_protocol : String
  firmware_version : Json
  last_seen : Option Nat
  created_at : Nat
  updated_at : Nat

/-- A row of the `status_history` table (the generated UUID primary key is
not modelled; no code path reads it). -/
structure StatusHistoryRow where
  device_id : String
  status_type : String
  payload : List (String × Json)
  timestamp : Nat

/-- A row of the `customers` table (only the columns the modelled code
reads). -/
structure CustomerRow where
  customer_id : Nat
  email : String
  username : String

/-- The relational store as seen by the modelled code paths. -/
structure Store where
  devices : List DeviceRow
  history : List StatusHistoryRow

/-- The `update_values` dict of main.py 705–714 applied to a device row:
always set `last_seen`; set `firmware_version` only for a telemetry
message whose payload carries a `firmware_version` field; `updated_at` is
bumped by the column's `onupdate=func.now()`. -/
def applyUpdate (message_type : String) (payload : List (String × Json))
    (now : Nat) (d : DeviceRow) : DeviceRow :=
  { d with
    last_seen := some now
    updated_at := now
    firmware_version :=
      if message_type == "telemetry" then
        match lookupField payload "firmware_version" with
        | some v => v
        | none => d.firmware_version
      else d.firmware_version }

/-- `store_message` (main.py 689–728): one atomic transaction. Look up the
device by uppercased id; if absent return the store unchanged (no
placeholder device, no history row); otherwise apply the update set to the
matching device row and append one history row. `now` is the receipt time
assigned while processing the event. -/
def store_message (st : Store) (customer_id : String) (device_id : String)
    (message_type : String) (payload : List (String × Json)) (now : Nat) :
    Store :=
  match st.devices.find? (fun d => d.device_id == pyUpper device_id) with
  | none => st
  | some _ =>
    { devices :=
        st.devices.map (fun d =>
          if d.device_id == pyUpper device_id then
            applyUpdate message_type payload now d
          else d),
      history :=
        st.history ++
          [{ device_id := pyUpper device_id, status_type := message_type,
             payload := payload, timestamp := now }] }

/-- Result of the command endpoint: an `HTTPException` (status code and
detail) with nothing published, or a message published to an MQTT topic. -/
inductive CmdResult where
  | rejected : Nat → String → CmdResult
  | published : String → String → CmdResult

/-- The body of `send_device_command` after the device lookup succeeded:
the ownership check, the per-kind `if`/`elif` validation chain of main.py
1560–1576, and on success the publish to
`node/<customer>/<device_id>/command/<command>` (device id as supplied,
not uppercased, in the topic). -/
def command_branch (device : DeviceRow) (current_customer : Nat)
    (device_id : String) (command : String) (value : String) : CmdResult :=
  if device.customer_id != current_customer then
    CmdResult.rejected 404 "Device not found or access denied."
  else if command == "power" && !(["on", "off"].contains value) then
      CmdResult.rejected 400 "Invalid power command value."
    else if command == "mode" &&
        !(["auto", "cool", "heat", "dry", "fan"].contains value) then
      CmdResult.rejected 400 "Invalid mode command value."
    else if command == "temperature" &&
        !(match pyInt value with
          | some t => decide (16 ≤ t ∧ t ≤ 30)
          | none => false) then
      CmdResult.rejected 400 "Temperature must be an integer between 16 and 30."
    else if command == "fanspeed" &&
        !(["auto", "low", "medium", "high"].contains value) then
      CmdResult.rejected 400 "Invalid fanspeed command value."
    else
      CmdResult.published
        ("node/" ++ uuidStr current_customer ++ "/" ++ device_id ++
          "/command/" ++ command)
        value

/-- `send_device_command` (main.py 1544–1589): look up the device by
uppercased id (404 when absent), then run the ownership check and
validation chain. -/
def send_device_command (st : Store) (current_customer : Nat)
    (device_id : String) (command : String) (value : String) : CmdResult :=
  match st.devices.find? (fun d => d.device_id == pyUpper device_id) with
  | none => CmdResult.rejected 404 "Device not found or access denied."
  | some device =>
    command_branch device current_customer device_id command value

/-- The per-kind validity rule exactly as the specification words it
(section 4.5): power in on/off, mode in auto/cool/heat/dry/fan, fanspeed
in auto/low/medium/high, temperature an integer in [16, 30]. -/
def specCmdValid (command : String) (value : String) : Bool :=
  if command == "power" then ["on", "off"].contains value
  else if command == "mode" then
    ["auto", "cool", "heat", "dry", "fan"].contains value
  else if command == "fanspeed" then
    ["auto", "low", "medium", "high"].contains value
  else if command == "temperature" then
    match pyInt value with
    | some t => decide (16 ≤ t ∧ t ≤ 30)
    | none => false
  else false

/-- Outcome of `jwt.decode` with the process signing key, the external
collaborator of `verify_jwt_token` (main.py 543–559). -/
inductive JwtDecode where
  | expired : JwtDecode
  | invalidSignature : JwtDecode
  | malformed : JwtDecode
  | ok : List (String × Json) → JwtDecode

/-- `verify_jwt_token` (main.py 543–559): map each decode failure to its
distinct 401 detail. -/
def verify_jwt_token (d : JwtDecode) : Except (Nat × String) (List (String × Json)) :=
  match d with
  | JwtDecode.ok payload => Except.ok payload
  | JwtDecode.expired => Except.error (401, "Token has expired")
  | JwtDecode.invalidSignature => Except.error (401, "Invalid token signature")
  | JwtDecode.malformed => Except.error (401, "Invalid token format")

/-- Outcome of the credential gate dependencies: an authenticated customer,
a device (the Python function returns `None` on device-secret success), or
an `HTTPException` with status code and detail. -/
inductive AuthResult where
  | ok : CustomerRow → AuthResult
  | deviceOk : AuthResult
  | httpError : Nat → String → AuthResult

/-- `get_current_customer` (main.py 565–598). A missing credential object
is a 401; token errors surface their distinct details; a falsy or missing
`customer_id` claim is "Invalid token payload"; a truthy non-string claim
makes `uuid.UUID` raise an `AttributeError` which the outer handler turns
into "Authentication failed"; a non-UUID string is "Invalid customer_id
format in token"; an unknown customer is "Customer not found". -/
def get_current_customer (credentials : Option String)
    (decode : String → JwtDecode) (customers : List CustomerRow) : AuthResult :=
  match credentials with
  | none => AuthResult.httpError 401 "Not authenticated"
  | some tok =>
    match verify_jwt_token (decode tok) with
    | Except.error e => AuthResult.httpError e.1 e.2
    | Except.ok payload =>
      match lookupField payload "customer_id" with
      | none => AuthResult.httpError 401 "Invalid token payload"
      | some v =>
        if jsonFalsy v then AuthResult.httpError 401 "Invalid token payload"
        else
          match v with
          | Json.str s =>
            match pyUUIDparse s with
            | none => AuthResult.httpError 401 "Invalid customer_id format in token"
            | some u =>
              match customers.find? (fun c => c.customer_id == u) with
              | none => AuthResult.httpError 401 "Customer not found"
              | some c => AuthResult.ok c
          | _ => AuthResult.httpError 401 "Authentication failed"

/-- Python truthiness of the `credentials` object together with its
`.credentials` token (`if credentials and credentials.credentials:`):
absent or empty-string token is falsy. -/
def credTruthy : Option String → Bool
  | some t => t != ""
  | none => false

/-- `get_current_customer_or_device_auth` (main.py 601–631). The bearer
branch runs first; otherwise a truthy `X-Device-Secret` header is compared
with the process `DEVICE_SECRET_KEY` (the Python function returns `None`,
here `deviceOk`, on success); with neither credential the request is
rejected with "Authentication required". FastAPI's `HTTPBearer` never
yields an empty token, and startup validation rejects an empty
`DEVICE_SECRET_KEY`. -/
def get_current_customer_or_device_auth (credentials : Option String)
    (x_device_secret : Option String) (decode : String → JwtDecode)
    (secretKey : String) (customers : List CustomerRow) : AuthResult :=
  if credTruthy credentials then
    get_current_customer credentials decode customers
  else
    match x_device_secret with
    | some s =>
      if s != "" then
        if s == secretKey then AuthResult.deviceOk
        else AuthResult.httpError 401 "Invalid device secret"
      else AuthResult.httpError 401 "Authentication required"
    | none => AuthResult.httpError 401 "Authentication required"

/-- `get_current_customer_ws` (main.py 634–672): like
`get_current_customer` but every failure, including the `HTTPException`
raised by `verify_jwt_token`, becomes a `WebSocketException` with close
code 1008 (policy violation); token errors are flattened to
"Authentication failed" by the catch-all handler. -/
def get_current_customer_ws (token : String) (decode : String → JwtDecode)
    (customers : List CustomerRow) : Except (Nat × String) CustomerRow :=
  match verify_jwt_token (decode token) with
  | Except.error _ => Except.error (1008, "Authentication failed")
  | Except.ok payload =>
    match lookupField payload "customer_id" with
    | none => Except.error (1008, "Invalid token payload")
    | some v =>
      if jsonFalsy v then Except.error (1008, "Invalid token payload")
      else
        match v with
        | Json.str s =>
          match pyUUIDparse s with
          | none => Except.error (1008, "Invalid customer_id format")
          | some u =>
            match customers.find? (fun c => c.customer_id == u) with
            | none => Except.error (1008, "Customer not found")
            | some c => Except.ok c
        | _ => Except.error (1008, "Authentication failed")

/-- Outcome of the WebSocket upgrade phase of `websocket_endpoint`
(main.py 1701–1715): refused with a close code before `accept` (the
broadcast loop never runs), or accepted for an authenticated customer. -/
inductive WsSetup where
  | refused : Nat → String → WsSetup
  | accepted : CustomerRow → WsSetup

/-- The pre-accept phase of `websocket_endpoint`: authenticate the query
token, then require `str(customer.customer_id) == customer_id` (the path
parameter) before accepting; a mismatch raises a policy-violation
`WebSocketException` (code 1008, "Access denied"). -/
def websocket_endpoint_setup (path_customer_id : String) (token : String)
    (decode : String → JwtDecode) (customers : List CustomerRow) : WsSetup :=
  match get_current_customer_ws token decode customers with
  | Except.error e => WsSetup.refused e.1 e.2
  | Except.ok customer =>
    if uuidStr customer.customer_id != path_customer_id then
      WsSetup.refused 1008 "Access denied"
    else WsSetup.accepted customer

/-- One message pushed over the WebSocket by the broadcast loop. -/
inductive WsMessage where
  | device_update : List DeviceRow → WsMessage
  | status_history : List StatusHistoryRow → WsMessage

/-- Descending order on `updated_at` used by
`order_by(Device.updated_at.desc())`. -/
def devDesc (a b : DeviceRow) : Bool :=
  decide (b.updated_at ≤ a.updated_at)

/-- Descending order on `timestamp` used by
`order_by(StatusHistory.timestamp.desc())`. -/
def histDesc (a b : StatusHistoryRow) : Bool :=
  decide (b.timestamp ≤ a.timestamp)

/-- The customer's device rows, unordered (the `where` clause of the
device query). -/
def ownedDevices (st : Store) (cust : Nat) : List DeviceRow :=
  st.devices.filter (fun d => d.customer_id == cust)

/-- Result of the device query in the loop body (main.py 1719–1724):
the customer's devices ordered most recently updated first. -/
def customerDevices (st : Store) (cust : Nat) : List DeviceRow :=
  (ownedDevices st cust).mergeSort devDesc

/-- History rows belonging to any of the customer's devices (the
`StatusHistory.device_id.in_(device_ids)` clause). -/
def ownedHistory (st : Store) (cust : Nat) : List StatusHistoryRow :=
  st.history.filter
    (fun h => ((customerDevices st cust).map (fun d => d.device_id)).contains
      h.device_id)

/-- Those rows ordered newest first. -/
def sortedHistory (st : Store) (cust : Nat) : List StatusHistoryRow :=
  (ownedHistory st cust).mergeSort histDesc

/-- Result of the history query (main.py 1730–1735): newest first,
`limit(100)`. -/
def recentHistory (st : Store) (cust : Nat) : List StatusHistoryRow :=
  (sortedHistory st cust).take 100

/-- One iteration of the broadcast loop body (main.py 1717–1740): push the
device snapshot, then, only if any devices exist, push the most recent 100
history rows. -/
def broadcast_iteration (st : Store) (cust : Nat) : List WsMessage :=
  WsMessage.device_update (customerDevices st cust) ::
    (if (customerDevices st cust).isEmpty then []
     else [WsMessage.status_history (recentHistory st cust)])

/-- A concrete registered device, used to instantiate theorems. -/
def sampleDevice : DeviceRow :=
  { device_id := "AA:BB:CC:DD:EE:FF", customer_id := 1, zone_id := 1,
    ac_brand_name := "LG", ac_brand_protocol := "ir",
    firmware_version := Json.str "1.0.0", last_seen := none,
    created_at := 0, updated_at := 0 }

/-- A store with one registered device, used to instantiate theorems. -/
def sampleStore : Store :=
  { devices := [sampleDevice], history := [] }

/-- A store with one device and 101 history rows for it, used to
instantiate the broadcast-loop theorem with more than 100 rows. -/
def wideStore : Store :=
  { devices := sampleStore.devices,
    history :=
      (List.range 101).map (fun i =>
        { device_id := "AA:BB:CC:DD:EE:FF", status_type := "status",
          payload := [], timestamp := i }) }

/-- Claim C1 (amended): the Topic and Payload Validator (`on_message` with the
scheduler reference set) produces a TelemetryEvent if and only if the topic
splits into at least four segments whose second parses as a 128-bit UUID,
third matches the 6-octet colon-separated MAC pattern, fourth is exactly
"status" or "telemetry", and the body is a decoded JSON object; the event
carries the topic segments verbatim (the device id is NOT uppercased here;
normalization happens in the persistence step). Being a total function,
the embedded validator raises nothing on any malformed variant: it returns
`none`. -/
theorem validator_event_iff (topic : String) (body : RawBody) :
    ((∃ ev, on_message topic body true = some ev) ↔
      (4 ≤ (pyStrSplit '/' topic).length ∧
        (pyUUIDparse ((pyStrSplit '/' topic).getD 1 "")).isSome = true ∧
        pyMacMatch ((pyStrSplit '/' topic).getD 2 "") = true ∧
        ((pyStrSplit '/' topic).getD 3 "" = "status" ∨
          (pyStrSplit '/' topic).getD 3 "" = "telemetry") ∧
        ∃ fields, body = RawBody.value (Json.obj fields)))
    ∧ ∀ ev, on_message topic body true = some ev →
        ev.customer_id = (pyStrSplit '/' topic).getD 1 "" ∧
        ev.device_id = (pyStrSplit '/' topic).getD 2 "" ∧
        ev.message_type = (pyStrSplit '/' topic).getD 3 "" ∧
        body = RawBody.value (Json.obj ev.payload) := by
  unfold on_message validate_parts
  by_cases h1 : (pyStrSplit '/' topic).length < 4
  · rw [if_pos h1]
    refine ⟨⟨fun h => ?_, fun h => ?_⟩, fun ev hev => absurd hev (by simp)⟩
    · obtain ⟨ev, hev⟩ := h
      exact absurd hev (by simp)
    · obtain ⟨h4, _⟩ := h
      omega
  · rw [if_neg h1]
    by_cases h2 : (pyUUIDparse ((pyStrSplit '/' topic).getD 1 "")).isNone = true
    · rw [if_pos h2]
      refine ⟨⟨fun h => ?_, fun h => ?_⟩, fun ev hev => absurd hev (by simp)⟩
      · obtain ⟨ev, hev⟩ := h
        exact absurd hev (by simp)
      · obtain ⟨_, hu, _⟩ := h
        rw [Option.isNone_iff_eq_none] at h2
        rw [h2] at hu
        exact absurd hu (by decide)
    · rw [if_neg h2]
      have h2' : (pyUUIDparse ((pyStrSplit '/' topic).getD 1 "")).isSome = true := by
        cases hopt : pyUUIDparse ((pyStrSplit '/' topic).getD 1 "") with
        | none => exact absurd (by rw [hopt]; rfl) h2
        | some v => rfl
      by_cases h3 : (!(pyMacMatch ((pyStrSplit '/' topic).getD 2 ""))) = true
      · rw [if_pos h3]
        rw [Bool.not_eq_true'] at h3
        refine ⟨⟨fun h => ?_, fun h => ?_⟩, fun ev hev => absurd hev (by simp)⟩
        · obtain ⟨ev, hev⟩ := h
          exact absurd hev (by simp)
        · obtain ⟨_, _, hm, _⟩ := h
          rw [h3] at hm
          exact absurd hm (by decide)
      · rw [if_neg h3]
        have h3' : pyMacMatch ((pyStrSplit '/' topic).getD 2 "") = true := by
          cases hb : pyMacMatch ((pyStrSplit '/' topic).getD 2 "")
          · rw [hb] at h3; exact absurd (by decide) h3
          · rfl
        by_cases h4 : (!(((pyStrSplit '/' topic).getD 3 "" == "status") ||
            ((pyStrSplit '/' topic).getD 3 "" == "telemetry"))) = true
        · rw [if_pos h4]
          rw [Bool.not_eq_true', Bool.or_eq_false_iff] at h4
          refine ⟨⟨fun h => ?_, fun h => ?_⟩, fun ev hev => absurd hev (by simp)⟩
          · obtain ⟨ev, hev⟩ := h
            exact absurd hev (by simp)
          · obtain ⟨_, _, _, hkk, _⟩ := h
            rcases hkk with hkk | hkk
            · rw [hkk] at h4
              exact absurd h4.1 (by decide)
            · rw [hkk] at h4
              exact absurd h4.2 (by decide)
        · rw [if_neg h4]
          have h4' : (pyStrSplit '/' topic).getD 3 "" = "status" ∨
              (pyStrSplit '/' topic).getD 3 "" = "telemetry" := by
            rcases hs : ((pyStrSplit '/' topic).getD 3 "" == "status") with _ | _
            · rcases ht : ((pyStrSplit '/' topic).getD 3 "" == "telemetry") with _ | _
              · rw [hs, ht] at h4
                exact absurd (by decide) h4
              · exact Or.inr (by rwa [beq_iff_eq] at ht)
            · exact Or.inl (by rwa [beq_iff_eq] at hs)
          rcases body with _ | _ | j
          · refine ⟨⟨fun h => ?_, fun h => ?_⟩, fun ev hev => absurd hev (by simp)⟩
            · obtain ⟨ev, hev⟩ := h
              exact absurd hev (by simp)
            · obtain ⟨_, _, _, _, fields, hb⟩ := h
              exact absurd hb (by simp)
          · refine ⟨⟨fun h => ?_, fun h => ?_⟩, fun ev hev => absurd hev (by simp)⟩
            · obtain ⟨ev, hev⟩ := h
              exact absurd hev (by simp)
            · obtain ⟨_, _, _, _, fields, hb⟩ := h
              exact absurd hb (by simp)
          · cases j
            · refine ⟨⟨fun h => ?_, fun h => ?_⟩, fun ev hev => absurd hev (by simp)⟩
              · obtain ⟨ev, hev⟩ := h
                exact absurd hev (by simp)
              · obtain ⟨_, _, _, _, fields, hb⟩ := h
                exact absurd hb (by simp)
            · refine ⟨⟨fun h => ?_, fun h => ?_⟩, fun ev hev => absurd hev (by simp)⟩
              · obtain ⟨ev, hev⟩ := h
                exact absurd hev (by simp)
              · obtain ⟨_, _, _, _, fields, hb⟩ := h
                exact absurd hb (by simp)
            · refine ⟨⟨fun h => ?_, fun h => ?_⟩, fun ev hev => absurd hev (by simp)⟩
              · obtain ⟨ev, hev⟩ := h
                exact absurd hev (by simp)
              · obtain ⟨_, _, _, _, fields, hb⟩ := h
                exact absurd hb (by simp)
            · refine ⟨⟨fun h => ?_, fun h => ?_⟩, fun ev hev => absurd hev (by simp)⟩
              · obtain ⟨ev, hev⟩ := h
                exact absurd hev (by simp)
              · obtain ⟨_, _, _, _, fields, hb⟩ := h
                exact absurd hb (by simp)
            · refine ⟨⟨fun h => ?_, fun h => ?_⟩, fun ev hev => absurd hev (by simp)⟩
              · obtain ⟨ev, hev⟩ := h
                exact absurd hev (by simp)
              · obtain ⟨_, _, _, _, fields, hb⟩ := h
                exact absurd hb (by simp)
            · rename_i fields
              refine ⟨⟨fun _ => ?_, fun _ => ?_⟩, fun ev hev => ?_⟩
              · exact ⟨by omega, h2', h3', h4', fields, rfl⟩
              · exact ⟨⟨_, _, _, fields⟩, rfl⟩
              · have hev' : some (TelemetryEvent.mk ((pyStrSplit '/' topic).getD 1 "")
                    ((pyStrSplit '/' topic).getD 2 "") ((pyStrSplit '/' topic).getD 3 "")
                    fields) = some ev := hev
                injection hev' with h
                subst h
                exact ⟨rfl, rfl, rfl, rfl⟩

/-- Counterexample to claim C1 as stated: a five-segment topic (not exactly
four) with valid inner segments still yields an event, and the produced
event carries the lowercase device id unchanged rather than normalized to
uppercase. -/
theorem validator_counterexample :
    (pyStrSplit '/' "ns/123e4567-e89b-12d3-a456-426614174000/aa:bb:cc:dd:ee:ff/status/x").length = 5 ∧
    on_message "ns/123e4567-e89b-12d3-a456-426614174000/aa:bb:cc:dd:ee:ff/status/x"
        (RawBody.value (Json.obj [])) true =
      some ⟨"123e4567-e89b-12d3-a456-426614174000", "aa:bb:cc:dd:ee:ff", "status", []⟩ ∧
    pyUpper "aa:bb:cc:dd:ee:ff" ≠ "aa:bb:cc:dd:ee:ff" :=
  ⟨by decide, rfl, by decide⟩

/-- Witness for C1: a concrete well-formed message produces an event. -/
theorem validator_event_iff_witness :
    ∃ ev, on_message "node/123e4567-e89b-12d3-a456-426614174000/AA:BB:CC:DD:EE:FF/telemetry"
      (RawBody.value (Json.obj [])) true = some ev :=
  (validator_event_iff _ _).1.mpr
    ⟨by decide, by decide, by decide, Or.inr (by decide), [], rfl⟩

/-- Claim C10: for any split topic with at least four segments, no condition
is ever imposed on the first segment (the namespace marker, universally
quantified here) or on segments beyond the fourth; any first segment
combined with a valid UUID, MAC and supported kind yields a TelemetryEvent,
including for a concrete five-plus-segment topic with a bogus namespace. -/
theorem namespace_ignored :
    (∀ (parts : List String) (fields : List (String × Json)),
        4 ≤ parts.length →
        (pyUUIDparse (parts.getD 1 "")).isSome = true →
        pyMacMatch (parts.getD 2 "") = true →
        (parts.getD 3 "" = "status" ∨ parts.getD 3 "" = "telemetry") →
        validate_parts parts (RawBody.value (Json.obj fields)) true =
          some ⟨parts.getD 1 "", parts.getD 2 "", parts.getD 3 "", fields⟩)
    ∧ on_message
        "bogus ns !!/123e4567-e89b-12d3-a456-426614174000/aa:bb:cc:dd:ee:ff/telemetry/ignored/extra"
        (RawBody.value (Json.obj [])) true =
      some ⟨"123e4567-e89b-12d3-a456-426614174000", "aa:bb:cc:dd:ee:ff", "telemetry", []⟩ := by
  constructor
  · intro parts fields h4 hu hm hk
    unfold validate_parts
    rw [if_neg (by omega)]
    rw [if_neg (by
      intro hc
      rw [Option.isNone_iff_eq_none] at hc
      rw [hc] at hu
      exact absurd hu (by decide))]
    rw [if_neg (by
      intro hc
      rw [Bool.not_eq_true'] at hc
      rw [hm] at hc
      exact absurd hc (by decide))]
    rw [if_neg (by
      intro hc
      rw [Bool.not_eq_true', Bool.or_eq_false_iff] at hc
      rcases hk with hk | hk
      · rw [hk] at hc
        exact absurd hc.1 (by decide)
      · rw [hk] at hc
        exact absurd hc.2 (by decide))]
    rfl
  · rfl

/-- Witness for C10 at a concrete five-segment topic part list. -/
theorem namespace_ignored_witness :
    validate_parts
        ["any ns", "123e4567-e89b-12d3-a456-426614174000", "aa:bb:cc:dd:ee:ff", "status", "extra"]
        (RawBody.value (Json.obj [])) true =
      some ⟨"123e4567-e89b-12d3-a456-426614174000", "aa:bb:cc:dd:ee:ff", "status", []⟩ :=
  namespace_ignored.1 _ [] (by decide) (by decide) (by decide) (Or.inl (by decide))

/-- Claim C8: a message that passes validation while the application event
loop reference is still unset is dropped: `on_message` schedules no
persistence work (returns `none`), and since the embedded callback is the
entire effect of a delivery, nothing is buffered for later processing. -/
theorem scheduler_unset_drops (topic : String) (body : RawBody)
    (ev : TelemetryEvent) (h : on_message topic body true = some ev) :
    on_message topic body false = none := by
  unfold on_message validate_parts
  repeat' split <;> try rfl

/-- Witness for C8: a concrete valid message is dropped when the loop
reference is unset. -/
theorem scheduler_unset_drops_witness :
    on_message "node/123e4567-e89b-12d3-a456-426614174000/AA:BB:CC:DD:EE:FF/status"
      (RawBody.value (Json.obj [])) false = none :=
  scheduler_unset_drops _ _
    ⟨"123e4567-e89b-12d3-a456-426614174000", "AA:BB:CC:DD:EE:FF", "status", []⟩ rfl



lemma find?_map_update (l : List DeviceRow) (k : String) (f : DeviceRow → DeviceRow)
    (hf : ∀ d, (f d).device_id = d.device_id) :
    (l.map (fun d => if d.device_id == k then f d else d)).find?
        (fun d => d.device_id == k) =
      (l.find? (fun d => d.device_id == k)).map f := by
  induction l with
  | nil => rfl
  | cons a l ih =>
    simp only [List.map_cons]
    by_cases h : (a.device_id == k) = true
    · rw [if_pos h]
      rw [@List.find?_cons_of_pos _ (fun d => d.device_id == k) (f a) _
        (by show ((f a).device_id == k) = true; rw [hf]; exact h)]
      rw [@List.find?_cons_of_pos _ (fun d => d.device_id == k) a _ h]
      rfl
    · rw [if_neg h]
      rw [@List.find?_cons_of_neg _ (fun d => d.device_id == k) a _ h]
      rw [@List.find?_cons_of_neg _ (fun d => d.device_id == k) a _ h]
      exact ih

lemma applyUpdate_eq (mt : String) (payload : List (String × Json)) (now : Nat)
    (d : DeviceRow) :
    applyUpdate mt payload now d =
      { d with
        last_seen := some now
        updated_at := now
        firmware_version :=
          if mt = "telemetry" ∧ (lookupField payload "firmware_version").isSome then
            (lookupField payload "firmware_version").getD d.firmware_version
          else d.firmware_version } := by
  unfold applyUpdate
  by_cases hmt : mt = "telemetry"
  · subst hmt
    cases hl : lookupField payload "firmware_version" with
    | none =>
      rw [if_pos (by decide)]
      rw [if_neg (by rintro ⟨_, hs⟩; exact absurd hs (by decide))]
    | some v =>
      rw [if_pos (by decide)]
      rw [if_pos ⟨rfl, rfl⟩]
      rfl
  · rw [if_neg (by intro hc; exact hmt (by rwa [beq_iff_eq] at hc))]
    rw [if_neg (by rintro ⟨h1, _⟩; exact hmt h1)]

lemma store_message_found (st : Store) (cid dev mt : String)
    (payload : List (String × Json)) (now : Nat) (d : DeviceRow)
    (h : st.devices.find? (fun r => r.device_id == pyUpper dev) = some d) :
    (store_message st cid dev mt payload now).history =
        st.history ++ [⟨pyUpper dev, mt, payload, now⟩] ∧
    (store_message st cid dev mt payload now).devices.find?
        (fun r => r.device_id == pyUpper dev) =
      some { d with
             last_seen := some now
             updated_at := now
             firmware_version :=
               if mt = "telemetry" ∧ (lookupField payload "firmware_version").isSome then
                 (lookupField payload "firmware_version").getD d.firmware_version
               else d.firmware_version } := by
  have hdev : (store_message st cid dev mt payload now).devices =
      st.devices.map (fun r =>
        if r.device_id == pyUpper dev then applyUpdate mt payload now r else r) := by
    unfold store_message
    rw [h]
  have hhist : (store_message st cid dev mt payload now).history =
      st.history ++ [⟨pyUpper dev, mt, payload, now⟩] := by
    unfold store_message
    rw [h]
  refine ⟨hhist, ?_⟩
  rw [hdev,
    find?_map_update st.devices (pyUpper dev) (applyUpdate mt payload now)
      (fun r => rfl),
    h]
  exact congrArg some (applyUpdate_eq mt payload now d)

/-- Claim C2: when the event's device id (uppercased) matches no device row,
`store_message` performs zero writes: the store is returned unchanged — no
last-seen update, no firmware change, no placeholder device, no history
row. -/
theorem store_unknown_device_no_writes (st : Store) (cid dev mt : String)
    (payload : List (String × Json)) (now : Nat)
    (h : st.devices.find? (fun r => r.device_id == pyUpper dev) = none) :
    store_message st cid dev mt payload now = st := by
  unfold store_message
  rw [h]

/-- Witness for C2 on the empty store. -/
theorem store_unknown_device_no_writes_witness :
    store_message { devices := [], history := [] } "c" "aa:bb:cc:dd:ee:ff" "status" [] 7 =
      { devices := [], history := [] } :=
  store_unknown_device_no_writes _ "c" "aa:bb:cc:dd:ee:ff" "status" [] 7 rfl

/-- Claim C3: when the device exists, `store_message` appends exactly one
history row carrying the event's kind and full payload, and the device row
now found has last-seen equal to the receipt time and a firmware version
equal to the payload's `firmware_version` field exactly when the kind is
"telemetry" and the field is present, and unchanged otherwise. -/
theorem store_known_device_writes (st : Store) (cid dev mt : String)
    (payload : List (String × Json)) (now : Nat) (d : DeviceRow)
    (h : st.devices.find? (fun r => r.device_id == pyUpper dev) = some d) :
    (store_message st cid dev mt payload now).history =
        st.history ++ [⟨pyUpper dev, mt, payload, now⟩] ∧
    (store_message st cid dev mt payload now).devices.find?
        (fun r => r.device_id == pyUpper dev) =
      some { d with
             last_seen := some now
             updated_at := now
             firmware_version :=
               if mt = "telemetry" ∧ (lookupField payload "firmware_version").isSome then
                 (lookupField payload "firmware_version").getD d.firmware_version
               else d.firmware_version } :=
  store_message_found st cid dev mt payload now d h

/-- Witness for C3 on the sample store with a telemetry message carrying a
firmware field. -/
theorem store_known_device_writes_witness :
    (store_message sampleStore "c" "aa:bb:cc:dd:ee:ff" "telemetry"
        [("firmware_version", Json.str "2.0.1")] 5).history =
      sampleStore.history ++
        [⟨"AA:BB:CC:DD:EE:FF", "telemetry", [("firmware_version", Json.str "2.0.1")], 5⟩] ∧
    (store_message sampleStore "c" "aa:bb:cc:dd:ee:ff" "telemetry"
        [("firmware_version", Json.str "2.0.1")] 5).devices.find?
        (fun r => r.device_id == pyUpper "aa:bb:cc:dd:ee:ff") =
      some { device_id := "AA:BB:CC:DD:EE:FF", customer_id := 1, zone_id := 1,
             ac_brand_name := "LG", ac_brand_protocol := "ir",
             firmware_version :=
               if "telemetry" = "telemetry" ∧
                   (lookupField [("firmware_version", Json.str "2.0.1")] "firmware_version").isSome then
                 (lookupField [("firmware_version", Json.str "2.0.1")] "firmware_version").getD
                   (Json.str "1.0.0")
               else Json.str "1.0.0",
             last_seen := some 5, created_at := 0, updated_at := 5 } :=
  store_known_device_writes sampleStore "c" "aa:bb:cc:dd:ee:ff" "telemetry"
    [("firmware_version", Json.str "2.0.1")] 5 _ rfl

/-- Claim C4: applying the same event twice (at-least-once duplicate
delivery) to a store containing the device yields exactly two appended
history rows and a device row whose last-seen is the second application's
receipt time; each application is a single atomic store update, so no
mixed state (history row without last-seen update or vice versa) exists. -/
theorem store_duplicate_delivery (st : Store) (cid dev mt : String)
    (payload : List (String × Json)) (t1 t2 : Nat) (d : DeviceRow)
    (h : st.devices.find? (fun r => r.device_id == pyUpper dev) = some d) :
    (store_message (store_message st cid dev mt payload t1) cid dev mt payload t2).history =
        st.history ++ [⟨pyUpper dev, mt, payload, t1⟩, ⟨pyUpper dev, mt, payload, t2⟩] ∧
    ∃ d2, (store_message (store_message st cid dev mt payload t1) cid dev mt
          payload t2).devices.find? (fun r => r.device_id == pyUpper dev) =
        some d2 ∧ d2.last_seen = some t2 := by
  obtain ⟨hh1, hd1⟩ := store_message_found st cid dev mt payload t1 d h
  obtain ⟨hh2, hd2⟩ := store_message_found (store_message st cid dev mt payload t1)
    cid dev mt payload t2 _ hd1
  constructor
  · rw [hh2, hh1, List.append_assoc]
    rfl
  · exact ⟨_, hd2, rfl⟩

/-- Witness for C4 on the sample store. -/
theorem store_duplicate_delivery_witness :
    (store_message (store_message sampleStore "c" "AA:BB:CC:DD:EE:FF" "status" [] 3)
        "c" "AA:BB:CC:DD:EE:FF" "status" [] 9).history =
      sampleStore.history ++
        [⟨"AA:BB:CC:DD:EE:FF", "status", [], 3⟩, ⟨"AA:BB:CC:DD:EE:FF", "status", [], 9⟩] ∧
    ∃ d2, (store_message (store_message sampleStore "c" "AA:BB:CC:DD:EE:FF" "status" [] 3)
          "c" "AA:BB:CC:DD:EE:FF" "status" [] 9).devices.find?
        (fun r => r.device_id == pyUpper "AA:BB:CC:DD:EE:FF") = some d2 ∧
      d2.last_seen = some 9 :=
  store_duplicate_delivery sampleStore "c" "AA:BB:CC:DD:EE:FF" "status" [] 3 9 _ rfl


/-- Claim C5: for an existing, owned device and a command kind among
power/mode/temperature/fanspeed, `send_device_command` publishes if and
only if the value is valid for the kind per the specification rule
(`specCmdValid`); any violation is an HTTP rejection with nothing
published. Concretely: temperature 15 and 31 are rejected, 16 and 30 are
published, power standby is rejected, power on is published. -/
theorem command_validation :
    (∀ (st : Store) (cust : Nat) (dev cmd val : String) (d : DeviceRow),
        st.devices.find? (fun r => r.device_id == pyUpper dev) = some d →
        d.customer_id = cust →
        (cmd = "power" ∨ cmd = "mode" ∨ cmd = "temperature" ∨ cmd = "fanspeed") →
        ((∃ t p, send_device_command st cust dev cmd val = CmdResult.published t p) ↔
          specCmdValid cmd val = true))
    ∧ send_device_command sampleStore 1 "AA:BB:CC:DD:EE:FF" "temperature" "15" =
        CmdResult.rejected 400 "Temperature must be an integer between 16 and 30."
    ∧ send_device_command sampleStore 1 "AA:BB:CC:DD:EE:FF" "temperature" "31" =
        CmdResult.rejected 400 "Temperature must be an integer between 16 and 30."
    ∧ send_device_command sampleStore 1 "AA:BB:CC:DD:EE:FF" "temperature" "16" =
        CmdResult.published
          "node/00000000-0000-0000-0000-000000000001/AA:BB:CC:DD:EE:FF/command/temperature" "16"
    ∧ send_device_command sampleStore 1 "AA:BB:CC:DD:EE:FF" "temperature" "30" =
        CmdResult.published
          "node/00000000-0000-0000-0000-000000000001/AA:BB:CC:DD:EE:FF/command/temperature" "30"
    ∧ send_device_command sampleStore 1 "AA:BB:CC:DD:EE:FF" "power" "standby" =
        CmdResult.rejected 400 "Invalid power command value."
    ∧ send_device_command sampleStore 1 "AA:BB:CC:DD:EE:FF" "power" "on" =
        CmdResult.published
          "node/00000000-0000-0000-0000-000000000001/AA:BB:CC:DD:EE:FF/command/power" "on" := by
  refine ⟨?_, rfl, rfl, rfl, rfl, rfl, rfl⟩
  intro st cust dev cmd val d hfind hcust hcmd
  have hs : send_device_command st cust dev cmd val =
      command_branch d cust dev cmd val := by
    unfold send_device_command
    rw [hfind]
  rw [hs]
  have hne : (d.customer_id != cust) = false := by simp [hcust]
  rcases hcmd with rfl | rfl | rfl | rfl
  · simp [command_branch, specCmdValid, hne]
    rcases em (val = "on" ∨ val = "off") with hP | hP
    · rw [if_neg (show ¬(¬val = "on" ∧ ¬val = "off") by tauto)]
      exact ⟨fun _ => hP, fun _ => ⟨_, _, rfl⟩⟩
    · rw [if_pos (show (¬val = "on" ∧ ¬val = "off") by tauto)]
      refine ⟨fun h => ?_, fun h => (hP h).elim⟩
      obtain ⟨t, p, hc⟩ := h
      exact absurd hc (by simp)
  · simp [command_branch, specCmdValid, hne]
    rcases em (val = "auto" ∨ val = "cool" ∨ val = "heat" ∨ val = "dry" ∨
        val = "fan") with hP | hP
    · rw [if_neg (show ¬(¬val = "auto" ∧ ¬val = "cool" ∧ ¬val = "heat" ∧
          ¬val = "dry" ∧ ¬val = "fan") by tauto)]
      exact ⟨fun _ => hP, fun _ => ⟨_, _, rfl⟩⟩
    · rw [if_pos (show (¬val = "auto" ∧ ¬val = "cool" ∧ ¬val = "heat" ∧
          ¬val = "dry" ∧ ¬val = "fan") by tauto)]
      refine ⟨fun h => ?_, fun h => (hP h).elim⟩
      obtain ⟨t, p, hc⟩ := h
      exact absurd hc (by simp)
  · simp [command_branch, specCmdValid, hne]
    rcases em ((match pyInt val with
        | some t => decide (16 ≤ t) && decide (t ≤ 30)
        | none => false) = true) with hP | hP
    · rw [if_neg (by simp [hP])]
      exact ⟨fun _ => hP, fun _ => ⟨_, _, rfl⟩⟩
    · have hM : (match pyInt val with
          | some t => decide (16 ≤ t) && decide (t ≤ 30)
          | none => false) = false := by
        cases hMb : (match pyInt val with
            | some t => decide (16 ≤ t) && decide (t ≤ 30)
            | none => false)
        · rfl
        · exact absurd hMb hP
      rw [if_pos hM]
      refine ⟨fun h => ?_, fun h => (hP h).elim⟩
      obtain ⟨t, p, hc⟩ := h
      exact absurd hc (by simp)
  · simp [command_branch, specCmdValid, hne]
    rcases em (val = "auto" ∨ val = "low" ∨ val = "medium" ∨ val = "high") with hP | hP
    · rw [if_neg (show ¬(¬val = "auto" ∧ ¬val = "low" ∧ ¬val = "medium" ∧
          ¬val = "high") by tauto)]
      exact ⟨fun _ => hP, fun _ => ⟨_, _, rfl⟩⟩
    · rw [if_pos (show (¬val = "auto" ∧ ¬val = "low" ∧ ¬val = "medium" ∧
          ¬val = "high") by tauto)]
      refine ⟨fun h => ?_, fun h => (hP h).elim⟩
      obtain ⟨t, p, hc⟩ := h
      exact absurd hc (by simp)

/-- Witness for C5 instantiating the general equivalence at mode=cool. -/
theorem command_validation_witness :
    (∃ t p, send_device_command sampleStore 1 "AA:BB:CC:DD:EE:FF" "mode" "cool" =
        CmdResult.published t p) ↔ specCmdValid "mode" "cool" = true :=
  command_validation.1 sampleStore 1 "AA:BB:CC:DD:EE:FF" "mode" "cool" _ rfl rfl
    (Or.inr (Or.inl rfl))

/-- Claim C7: with both the bearer token and the device-secret header
absent the gate returns 401 "Authentication required"; with a (nonempty)
bearer token present the result is exactly `get_current_customer`'s,
regardless of any device secret (the secret is never consulted); a
device-secret-only request yields the Device principal iff the supplied
secret equals the (nonempty, per startup validation) process secret. -/
theorem credential_gate_spec :
    (∀ (decode : String → JwtDecode) (secretKey : String)
        (customers : List CustomerRow),
        get_current_customer_or_device_auth none none decode secretKey customers =
          AuthResult.httpError 401 "Authentication required")
    ∧ (∀ (tok : String), tok ≠ "" →
        ∀ (xds : Option String) (decode : String → JwtDecode)
          (secretKey : String) (customers : List CustomerRow),
          get_current_customer_or_device_auth (some tok) xds decode secretKey
              customers =
            get_current_customer (some tok) decode customers)
    ∧ (∀ (s secretKey : String), secretKey ≠ "" →
        ∀ (decode : String → JwtDecode) (customers : List CustomerRow),
          (get_current_customer_or_device_auth none (some s) decode secretKey
              customers = AuthResult.deviceOk ↔ s = secretKey)) := by
  refine ⟨fun decode secretKey customers => rfl, ?_, ?_⟩
  · intro tok htok xds decode secretKey customers
    unfold get_current_customer_or_device_auth
    rw [if_pos (show credTruthy (some tok) = true by
      show (tok != "") = true; rwa [bne_iff_ne])]
  · intro s secretKey hkey decode customers
    have hred : get_current_customer_or_device_auth none (some s) decode secretKey
        customers =
        (if (s != "") = true then
          if (s == secretKey) = true then AuthResult.deviceOk
          else AuthResult.httpError 401 "Invalid device secret"
        else AuthResult.httpError 401 "Authentication required") := by
      unfold get_current_customer_or_device_auth
      rw [if_neg (by decide)]
    rw [hred]
    by_cases hse : s = ""
    · subst hse
      rw [if_neg (by decide)]
      constructor
      · intro hc
        exact absurd hc (by simp)
      · intro hc
        exact absurd hc.symm hkey
    · rw [if_pos (show (s != "") = true by rwa [bne_iff_ne])]
      by_cases heq : s = secretKey
      · subst heq
        rw [if_pos (by simp)]
        simp
      · rw [if_neg (show ¬(s == secretKey) = true by
          intro hc; exact heq (by rwa [beq_iff_eq] at hc))]
        constructor
        · intro hc
          exact absurd hc (by simp)
        · intro hc
          exact absurd hc heq

/-- Witness for C7: a matching device secret authenticates as a device. -/
theorem credential_gate_spec_witness :
    get_current_customer_or_device_auth none (some "sk") (fun _ => JwtDecode.malformed)
        "sk" [] = AuthResult.deviceOk :=
  ((credential_gate_spec.2.2 "sk" "sk" (by decide) (fun _ => JwtDecode.malformed) []).mpr rfl)

/-- Claim C9: the WebSocket upgrade is accepted only when the query token
authenticates a customer whose canonical id string equals the path
customer id; on a mismatch the upgrade is refused with close code 1008
(policy violation) before `accept`, so the broadcast loop never starts
(`WsSetup.refused` is the pre-accept exit of `websocket_endpoint`). -/
theorem websocket_upgrade_guard (path tok : String) (decode : String → JwtDecode)
    (customers : List CustomerRow) :
    (∀ c, websocket_endpoint_setup path tok decode customers = WsSetup.accepted c →
        get_current_customer_ws tok decode customers = Except.ok c ∧
        uuidStr c.customer_id = path)
    ∧ (∀ c, get_current_customer_ws tok decode customers = Except.ok c →
        uuidStr c.customer_id ≠ path →
        websocket_endpoint_setup path tok decode customers =
          WsSetup.refused 1008 "Access denied") := by
  constructor
  · intro c hacc
    unfold websocket_endpoint_setup at hacc
    cases hgc : get_current_customer_ws tok decode customers with
    | error e =>
      rw [hgc] at hacc
      exact absurd hacc (by simp)
    | ok customer =>
      rw [hgc] at hacc
      have hacc' : (if (uuidStr customer.customer_id != path) = true then
          WsSetup.refused 1008 "Access denied"
        else WsSetup.accepted customer) = WsSetup.accepted c := hacc
      by_cases hm : (uuidStr customer.customer_id != path) = true
      · rw [if_pos hm] at hacc'
        exact absurd hacc' (by simp)
      · rw [if_neg hm] at hacc'
        injection hacc' with hacc'
        subst hacc'
        refine ⟨rfl, ?_⟩
        cases hb : (uuidStr customer.customer_id != path)
        · rwa [bne_eq_false_iff_eq] at hb
        · exact absurd hb hm
  · intro c hok hne
    unfold websocket_endpoint_setup
    rw [hok]
    show (if (uuidStr c.customer_id != path) = true then
        WsSetup.refused 1008 "Access denied"
      else WsSetup.accepted c) = WsSetup.refused 1008 "Access denied"
    rw [if_pos (show (uuidStr c.customer_id != path) = true by rwa [bne_iff_ne])]

/-- Witness for C9: a mismatched path id is refused with code 1008. -/
theorem websocket_upgrade_guard_witness :
    websocket_endpoint_setup "mismatched-path" "tok"
        (fun _ => JwtDecode.ok
          [("customer_id", Json.str "00000000-0000-0000-0000-000000000001")])
        [⟨1, "a@b.c", "u"⟩] = WsSetup.refused 1008 "Access denied" :=
  (websocket_upgrade_guard "mismatched-path" "tok" _ _).2 ⟨1, "a@b.c", "u"⟩ rfl
    (by decide)


/-- Claim C6: each broadcast-loop iteration pushes the device snapshot
first: it contains every one of the customer's devices (a permutation of
the owned rows), ordered most recently updated first; with zero devices
only the snapshot is pushed (no history message); and when more than 100
history rows belong to the customer's devices, the iteration is exactly
the snapshot followed by one history message holding exactly 100 rows,
newest first, which are the most recent rows (every excluded row is no
newer than every included one). -/
theorem broadcast_iteration_spec (st : Store) (cust : Nat) :
    ((customerDevices st cust).Perm (ownedDevices st cust) ∧
      (customerDevices st cust).Pairwise (fun a b => b.updated_at ≤ a.updated_at)) ∧
    (ownedDevices st cust = [] →
      broadcast_iteration st cust =
        [WsMessage.device_update (customerDevices st cust)]) ∧
    (100 < (ownedHistory st cust).length →
      broadcast_iteration st cust =
        [WsMessage.device_update (customerDevices st cust),
         WsMessage.status_history (recentHistory st cust)] ∧
      (recentHistory st cust).length = 100 ∧
      (recentHistory st cust).Pairwise (fun a b => b.timestamp ≤ a.timestamp) ∧
      (∀ a ∈ recentHistory st cust, ∀ b ∈ (sortedHistory st cust).drop 100,
          b.timestamp ≤ a.timestamp) ∧
      (sortedHistory st cust).Perm (ownedHistory st cust)) := by
  have hhisttrans : ∀ a b c : StatusHistoryRow, histDesc a b = true →
      histDesc b c = true → histDesc a c = true := by
    intro a b c h1 h2
    simp only [histDesc, decide_eq_true_eq] at h1 h2 ⊢
    omega
  have hhisttotal : ∀ a b : StatusHistoryRow, (histDesc a b || histDesc b a) = true := by
    intro a b
    simp only [histDesc, Bool.or_eq_true, decide_eq_true_eq]
    omega
  have hdevtrans : ∀ a b c : DeviceRow, devDesc a b = true →
      devDesc b c = true → devDesc a c = true := by
    intro a b c h1 h2
    simp only [devDesc, decide_eq_true_eq] at h1 h2 ⊢
    omega
  have hdevtotal : ∀ a b : DeviceRow, (devDesc a b || devDesc b a) = true := by
    intro a b
    simp only [devDesc, Bool.or_eq_true, decide_eq_true_eq]
    omega
  refine ⟨⟨List.mergeSort_perm _ _, ?_⟩, ?_, ?_⟩
  · exact (List.sorted_mergeSort hdevtrans hdevtotal (ownedDevices st cust)).imp
      (fun h => of_decide_eq_true h)
  · intro hdev
    have hcd : customerDevices st cust = [] := by
      unfold customerDevices
      rw [hdev, List.mergeSort_nil]
    simp [broadcast_iteration, hcd]
  · intro hM
    have hsorted : (sortedHistory st cust).Pairwise (fun a b => histDesc a b = true) :=
      List.sorted_mergeSort hhisttrans hhisttotal (ownedHistory st cust)
    have hne : customerDevices st cust ≠ [] := by
      intro hc
      have hpos : 0 < (ownedHistory st cust).length := by omega
      obtain ⟨x, hx⟩ := List.exists_mem_of_ne_nil _ (List.length_pos.mp hpos)
      unfold ownedHistory at hx
      have hp := (List.mem_filter.mp hx).2
      rw [hc] at hp
      have hz : (List.map (fun d : DeviceRow => d.device_id)
          ([] : List DeviceRow)).contains x.device_id = false := rfl
      rw [hz] at hp
      exact absurd hp (by decide)
    have hie : (customerDevices st cust).isEmpty = false := by
      cases hl : customerDevices st cust
      · exact absurd hl hne
      · rfl
    refine ⟨?_, ?_, ?_, ?_, List.mergeSort_perm _ _⟩
    · simp [broadcast_iteration, hie]
    · unfold recentHistory sortedHistory
      rw [List.length_take, @List.length_mergeSort _ histDesc (ownedHistory st cust)]
      omega
    · exact (List.Pairwise.sublist (List.take_sublist 100 _) hsorted).imp
        (fun h => of_decide_eq_true h)
    · intro a ha b hb
      have hp : List.Pairwise (fun a b => histDesc a b = true)
          ((sortedHistory st cust).take 100 ++ (sortedHistory st cust).drop 100) := by
        rw [List.take_append_drop]
        exact hsorted
      exact of_decide_eq_true ((List.pairwise_append.mp hp).2.2 a ha b hb)

/-- Witness for C6 on a store with one device and 101 history rows. -/
theorem broadcast_iteration_spec_witness :
    100 < (ownedHistory wideStore 1).length ∧
    (broadcast_iteration wideStore 1 =
        [WsMessage.device_update (customerDevices wideStore 1),
         WsMessage.status_history (recentHistory wideStore 1)] ∧
      (recentHistory wideStore 1).length = 100 ∧
      (recentHistory wideStore 1).Pairwise (fun a b => b.timestamp ≤ a.timestamp) ∧
      (∀ a ∈ recentHistory wideStore 1, ∀ b ∈ (sortedHistory wideStore 1).drop 100,
          b.timestamp ≤ a.timestamp) ∧
      (sortedHistory wideStore 1).Perm (ownedHistory wideStore 1)) := by
  have hcd : customerDevices wideStore 1 = [sampleDevice] := by
    unfold customerDevices
    have hf : ownedDevices wideStore 1 = [sampleDevice] := rfl
    rw [hf, List.mergeSort_singleton]
  have hlen : 100 < (ownedHistory wideStore 1).length := by
    unfold ownedHistory
    rw [hcd]
    decide
  exact ⟨hlen, (broadcast_iteration_spec wideStore 1).2.2 hlen⟩

end AC
